import Mathlib

/-!
Verification of the PawnStar chess-assistant (`src/chessbot.py`) against its
natural-language specification.

The development shallow-embeds the `ChessBot` class's pure control logic:

* the token cleanup done by `update_board_from_moves` (Python `str.strip`,
  the move-number filter, `str.isdigit`);
* the replay loop that reconstructs a board from scraped move tokens
  (`update_board_from_moves`, lines 299-369) and `_set_correct_turn`
  (lines 371-389);
* the auto-update worker tick (`_auto_update_worker`, lines 185-286);
* `start_auto_update` (lines 134-161);
* the engine-analysis retry loop (`_analyze_position`, lines 537-567) and
  the time clamping in `get_best_move` (lines 508-535).

The third-party `python-chess` library is out of scope (the spec lists chess
rules, notation parsing and engine search as external collaborators), so move
parsing is a parameter `parse : Board → String → Option Move` and a board is
modelled by the data the repository's own code observes and mutates: the side
to move (`chess.Board.turn`, `True` = white), the stack of pushed moves (a
`python-chess` position is a function of the move stack replayed from the
standard initial position) and whether any piece is on the board (used by the
`piece_at` guard of `get_best_move`; `push` of a parsed legal move never
empties the board).  Python floats (`time.time()`, intervals) are modelled as
rationals, and Python's `hash(tuple(moves))` content fingerprint as the
injective fingerprint that keeps the token tuple itself.
-/

deriving instance DecidableEq for Except

namespace PawnStar

/-! ### Python string primitives used by `update_board_from_moves` -/

/-- Characters removed by Python `str.strip()` (whitespace). -/
def stripChars (l : List Char) : List Char :=
  ((l.dropWhile Char.isWhitespace).reverse.dropWhile Char.isWhitespace).reverse

/-- Model of Python `str.strip()`: drop leading and trailing whitespace. -/
def pyStrip (s : String) : String := ⟨stripChars s.data⟩

/-- Model of Python `str.isdigit()` on ASCII data: nonempty and all digits. -/
def pyIsDigit (l : List Char) : Bool := !l.isEmpty && l.all Char.isDigit

/-- The move-number filter of `update_board_from_moves` (line 334):
`'.' in clean_move and clean_move.replace('.', '').isdigit()`. -/
def isMoveNumberToken (s : String) : Bool :=
  s.data.contains '.' && pyIsDigit (s.data.filter (fun c => c != '.'))

/-! ### The board model -/

/-- Opaque handle for a parsed `chess.Move` object. -/
abbrev Move := Nat

/-- Model of a `chess.Board`: side to move (`turn`, `true` = white), the
stack of pushed moves (which determines the position, replayed from the
standard initial position), and whether any square is occupied. -/
structure Board where
  turn : Bool
  stack : List Move
  hasPieces : Bool
deriving DecidableEq

/-- `chess.Board()`: the standard initial position, white to move. -/
def initBoard : Board := ⟨true, [], true⟩

/-- `board.push(move)`: appends to the move stack and flips the side to
move; pushing a legal move never removes the last piece. -/
def Board.push (b : Board) (m : Move) : Board := ⟨!b.turn, b.stack ++ [m], b.hasPieces⟩

/-! ### The replay loop of `update_board_from_moves` (lines 327-346)

For each scraped token: strip it, skip move-number tokens, skip empty
tokens, try `parse_san` (a `ValueError`/`InvalidMoveError` is caught and the
token skipped), and on success push the move and record the cleaned token in
`applied_moves`. -/

/-- Replay of a scraped token list from board `b`; returns the final board
and the `applied_moves` list of successfully parsed cleaned tokens. -/
def replayFrom (parse : Board → String → Option Move) :
    Board → List String → Board × List String
  | b, [] => (b, [])
  | b, tok :: rest =>
    let clean := pyStrip tok
    if isMoveNumberToken clean then replayFrom parse b rest
    else if clean.data.isEmpty then replayFrom parse b rest
    else
      match parse b clean with
      | some m =>
        let r := replayFrom parse (b.push m) rest
        (r.1, clean :: r.2)
      | none => replayFrom parse b rest

/-! ### `ChessBot` board-related state and `update_board_from_moves` -/

/-- The board-related fields of a `ChessBot` instance.  `user_color` is
`some true` for `'white'`, `some false` for `'black'`, `none` when unset;
`engine` records whether a Stockfish process handle is held. -/
structure BotState where
  board : Board
  move_history : List String
  initial_board_set : Bool
  user_color : Option Bool
  engine : Bool
deriving DecidableEq

/-- The change test of `update_board_from_moves` (lines 318-320):
`not self.initial_board_set or len(moves) != len(self.move_history)
or moves != self.move_history`. -/
def movesChanged (st : BotState) (moves : List String) : Bool :=
  !st.initial_board_set || decide (moves.length ≠ st.move_history.length) ||
    decide (moves ≠ st.move_history)

/-- Result of `update_board_from_moves`: the mutated `self` state plus the
returned `(board, moves)` pair. -/
structure UpdateOut where
  state : BotState
  board : Board
  moves : List String
deriving DecidableEq

/-- `update_board_from_moves` (lines 299-369), given the move list its inner
`_scrape_move_list()` call returned: on a detected change it resets the board
to the initial position, replays all parseable tokens, stores the applied
tokens as the new move history and calls `_set_correct_turn`, which forces
`board.turn` to white iff the applied move count is even (lines 379-385);
otherwise state is untouched and the stored history is returned. -/
def updateBoardFromMoves (parse : Board → String → Option Move)
    (st : BotState) (moves : List String) : UpdateOut :=
  if movesChanged st moves then
    let r := replayFrom parse initBoard moves
    let b : Board := { r.1 with turn := decide (r.2.length % 2 = 0) }
    ⟨{ st with board := b, move_history := r.2, initial_board_set := true }, b, r.2⟩
  else
    ⟨st, st.board, st.move_history⟩

/-! ### The auto-update worker (`_auto_update_worker`, lines 185-286)

One loop iteration ("tick") is modelled as a function of the worker's local
variables, the bot state, and the tick's observations: the clock value, what
the worker's `_scrape_move_list()` call observed, and how the
`update_board_from_moves` call behaves if reconciliation is entered (it
scrapes again internally; an `.error` input models it raising, which in the
source reaches the inner `except` at line 261).  `outerRaise` models an
exception escaping directly to the worker's outer handler (line 271); note
`_scrape_move_list` itself catches every exception and returns `[]`
(lines 473-475), so a low-level scrape failure never takes that path.
Callback exceptions are caught at the call site (lines 233-236) and the
auto-suggest side path only ever rewrites `board.turn` to the value it
already has (the guard at line 243 requires `board.turn` to equal the user
color that `get_best_move` would assign), so neither affects the state. -/

/-- Python `hash(tuple(moves)) if moves else None`, with the hash modelled as
the injective fingerprint keeping the tuple itself. -/
def movesHash (moves : List String) : Option (List String) :=
  if moves.isEmpty then none else some moves

/-- The worker's loop-local variables (lines 187-192). -/
structure WorkerState where
  last_move_count : Nat
  last_moves_hash : Option (List String)
  error_count : Nat
  last_update_time : ℚ
deriving DecidableEq

/-- `min_update_interval = 1.0` (line 192). -/
def minUpdateInterval : ℚ := 1

/-- `max_errors = 5` (line 190). -/
def maxErrors : Nat := 5

/-- Default poll interval (`interval: float = 2.0`, lines 39 and 134). -/
def defaultPollInterval : ℚ := 2

/-- Python builtin `min` on two floats. -/
def pymin (a b : ℚ) : ℚ := if a ≤ b then a else b

/-- Python builtin `max` on two floats. -/
def pymax (a b : ℚ) : ℚ := if a ≤ b then b else a

/-- What one tick observes. -/
structure TickInput where
  now : ℚ
  scrapeRaw : Except Unit (List String)
  reconcile : Except Unit (List String)
  outerRaise : Bool

/-- `_scrape_move_list` (lines 393-475): the DOM/selector pipeline is
abstracted into the `.ok` payload; any exception inside the function is
caught by its final handler, which returns `[]` (lines 473-475). -/
def scrapeResult : Except Unit (List String) → List String
  | .error _ => []
  | .ok l => l

/-- `significant_change` (lines 209-210). -/
def significantChange (wst : WorkerState) (scraped : List String) : Bool :=
  decide (scraped.length ≠ wst.last_move_count) ||
    decide (movesHash scraped ≠ wst.last_moves_hash)

/-- Observable events of one tick. -/
structure TickEvents where
  reconciled : Bool
  committed : Bool
  callbackFired : Bool
deriving DecidableEq

/-- A tick with no reconciliation and no callback. -/
def noEvents : TickEvents := ⟨false, false, false⟩

/-- Result of one tick: the new worker-local state, the new bot state, the
events, and the duration waited before the next tick. -/
structure TickOut where
  wst : WorkerState
  bst : BotState
  events : TickEvents
  wait : ℚ
deriving DecidableEq

/-- The double gate at lines 212-214: an actual change was observed, the
scrape was nonempty (`current_moves_hash is not None`), and the minimum
inter-update spacing has elapsed. -/
def tickGate (wst : WorkerState) (inp : TickInput) : Bool :=
  significantChange wst (scrapeResult inp.scrapeRaw) &&
    (movesHash (scrapeResult inp.scrapeRaw)).isSome &&
    decide (minUpdateInterval ≤ inp.now - wst.last_update_time)

/-- The post-replay gate at lines 222-224: the applied subsequence's count
or fingerprint differs from the last accepted one. -/
def commitGate (wst : WorkerState) (applied : List String) : Bool :=
  decide (applied.length ≠ wst.last_move_count) ||
    decide (movesHash applied ≠ wst.last_moves_hash)

/-- One iteration of the `while` loop of `_auto_update_worker`
(lines 196-284).  `hasCallback` models `self.update_callback` being set. -/
def workerTick (parse : Board → String → Option Move) (hasCallback : Bool)
    (interval : ℚ) (wst : WorkerState) (bst : BotState) (inp : TickInput) : TickOut :=
  if inp.outerRaise then
    -- outer `except` (lines 271-284): count the error, then back off if
    -- `error_count >= max_errors`, waiting `min(interval * 3, 10.0)`.
    let ec := wst.error_count + 1
    { wst := { wst with error_count := ec }, bst := bst, events := noEvents,
      wait := if maxErrors ≤ ec then pymin (interval * 3) 10 else interval }
  else
    if tickGate wst inp then
      match inp.reconcile with
      | .error _ =>
        -- inner `except` (lines 261-263): count the error; the following
        -- wait (line 266) still uses the plain poll interval.
        { wst := { wst with error_count := wst.error_count + 1 }, bst := bst,
          events := { reconciled := true, committed := false, callbackFired := false },
          wait := interval }
      | .ok innerScrape =>
        let u := updateBoardFromMoves parse bst innerScrape
        if commitGate wst u.moves then
          { wst := { last_move_count := u.moves.length, last_moves_hash := movesHash u.moves,
                     error_count := 0, last_update_time := inp.now },
            bst := u.state,
            events := { reconciled := true, committed := true, callbackFired := hasCallback },
            wait := interval }
        else
          { wst := wst, bst := u.state,
            events := { reconciled := true, committed := false, callbackFired := false },
            wait := interval }
    else
      { wst := wst, bst := bst, events := noEvents, wait := interval }

/-- The worker's initial local variables (lines 187-192), with the clock
origin at 0. -/
def initWorkerState (bst : BotState) : WorkerState :=
  ⟨bst.move_history.length, none, 0, 0⟩

/-! ### `start_auto_update` (lines 134-161) -/

/-- The poller-related fields of a `ChessBot` instance.  Callbacks and
threads are opaque handles; `stop_signal` models `_stop_auto_update.is_set()`
and `driver` whether a WebDriver is attached. -/
structure PollerState where
  auto_update_enabled : Bool
  driver : Bool
  update_callback : Option Nat
  auto_update_interval : ℚ
  auto_suggest_moves : Bool
  auto_update_thread : Option Nat
  stop_signal : Bool
deriving DecidableEq

/-- `start_auto_update(callback, interval, auto_suggest)`: a no-op while a
poller is active (lines 143-145), an error without a driver (lines 147-148),
otherwise records the configuration, clears the stop event and starts the
worker thread (a fresh opaque handle). -/
def startAutoUpdate (st : PollerState) (callback : Option Nat) (interval : ℚ)
    (auto_suggest : Bool) : Except Unit PollerState :=
  if st.auto_update_enabled then .ok st
  else if !st.driver then .error ()
  else .ok { st with update_callback := callback, auto_update_interval := interval,
                     auto_suggest_moves := auto_suggest, auto_update_enabled := true,
                     stop_signal := false, auto_update_thread := some 0 }

/-! ### Engine analysis (`get_best_move` / `_analyze_position`, lines 508-567) -/

/-- The time clamp of `get_best_move` (line 534):
`time_limit = max(0.1, min(time_limit, 10.0))`. -/
def clampTime (t : ℚ) : ℚ := pymax (1 / 10) (pymin t 10)

/-- Behaviour of one `engine.analyse` attempt.  `ok good` is a normal return
(`good` = the principal variation is nonempty and its head legal, lines
548-551); `terminated restartOk` is an `EngineTerminatedError`, with
`restartOk` telling whether the subsequent `start_engine()` call succeeds;
`err` is any other exception (line 564). -/
inductive EngineOutcome where
  | ok (good : Bool)
  | terminated (restartOk : Bool)
  | err
deriving DecidableEq

/-- How an `_analyze_position` call resolves. -/
inductive AnalyzeResult where
  /-- Returned the head of the engine's principal variation (line 552). -/
  | fromPv
  /-- Fell back to the first legal move (lines 554-556 and 564-567). -/
  | fallbackLegal
  /-- `start_engine()` failed during a restart, so its `ChessBotError`
  escaped to the caller. -/
  | raisedRestartFailed
  /-- The supplied outcome trace was exhausted while still retrying. -/
  | exhausted
deriving DecidableEq

/-- Accumulated observable result of an `_analyze_position` call: how it
resolved, how many engine restarts it performed, and the time budgets it
passed to `engine.analyse` (line 544 gives each attempt
`min(time_limit, 3.0)`). -/
structure AnalyzeOut where
  result : AnalyzeResult
  restarts : Nat
  budgets : List ℚ
deriving DecidableEq

/-- `_analyze_position(time_limit)` (lines 537-567) driven by a trace of
engine behaviours, one entry per `engine.analyse` attempt.  On
`EngineTerminatedError` it restarts the engine and recurses with
`min(time_limit, 1.0)` (lines 558-562); there is no bound on the number of
such restarts. -/
def analyzeRun : ℚ → List EngineOutcome → AnalyzeOut
  | _, [] => ⟨.exhausted, 0, []⟩
  | t, o :: rest =>
    let budget := pymin t 3
    match o with
    | .ok good => ⟨if good then .fromPv else .fallbackLegal, 0, [budget]⟩
    | .err => ⟨.fallbackLegal, 0, [budget]⟩
    | .terminated restartOk =>
      if restartOk then
        let r := analyzeRun (pymin t 1) rest
        ⟨r.result, r.restarts + 1, budget :: r.budgets⟩
      else ⟨.raisedRestartFailed, 0, [budget]⟩

/-- The tail of `get_best_move` from line 521 on: the piece-presence guard
(521-522), the user-color guard (524-525), the overwrite of
`self.board.turn` with the user's configured color (line 528), the
`_validate_position` guard (530-531, `gameOver` and `hasLegalMoves` stand
for the `python-chess` predicates it uses), the time clamp (line 534) and
the `_analyze_position` call (line 535).  Returns the mutated state and
either `.error ()` for a raised `ChessBotError` or the analysis outcome. -/
def validateAndAnalyze (gameOver hasLegalMoves : Board → Bool)
    (eng : List EngineOutcome) (st2 : BotState) (time_limit : ℚ) :
    BotState × Except Unit AnalyzeOut :=
  if !st2.board.hasPieces then (st2, .error ())
  else
    match st2.user_color with
    | none => (st2, .error ())
    | some c =>
      let st3 : BotState := { st2 with board := { st2.board with turn := c } }
      if gameOver st3.board || !hasLegalMoves st3.board then (st3, .error ())
      else (st3, .ok (analyzeRun (clampTime time_limit) eng))

/-- `get_best_move(time_limit)` (lines 508-535).  `start_engine` (510-511)
is modelled as succeeding (a failure would raise before any state change);
`scraped` feeds the `update_board_from_moves` call made when no board state
exists yet (lines 513-519; its exceptions are caught there). -/
def getBestMove (parse : Board → String → Option Move) (gameOver : Board → Bool)
    (hasLegalMoves : Board → Bool) (eng : List EngineOutcome)
    (scraped : List String) (st : BotState) (time_limit : ℚ) :
    BotState × Except Unit AnalyzeOut :=
  let st1 : BotState := { st with engine := true }
  let st2 := if st1.initial_board_set then st1
             else (updateBoardFromMoves parse st1 scraped).state
  validateAndAnalyze gameOver hasLegalMoves eng st2 time_limit

/-! ### Concrete instances used by witnesses and counterexamples -/

/-- A concrete deterministic stand-in for `chess.Board.parse_san`: accepts a
fixed handful of tokens on any position (the move handle is the ply index). -/
def demoParse (b : Board) (s : String) : Option Move :=
  if s = "e4" ∨ s = "e5" ∨ s = "Nf3" ∨ s = "Nc6" ∨ s = "d4" then some b.stack.length
  else none

/-- A bot state whose accepted history is the single move `e4`. -/
def demoBot : BotState :=
  ⟨⟨false, [0], true⟩, ["e4"], true, some true, false⟩

/-- A freshly constructed bot: initial board, no history. -/
def freshBot : BotState :=
  ⟨initBoard, [], false, none, false⟩

/-! ## Lemmas about Python string stripping -/

lemma head?_dropWhile_not (p : Char → Bool) :
    ∀ (l : List Char) (a : Char), (l.dropWhile p).head? = some a → p a = false := by
  intro l
  induction l with
  | nil => intro a h; simp at h
  | cons c t ih =>
    intro a h
    rw [List.dropWhile_cons] at h
    cases hpc : p c
    · rw [hpc] at h
      simp at h
      rw [← h]
      exact hpc
    · rw [hpc] at h
      simp at h
      exact ih a h

lemma dropWhile_eq_self_of_head (p : Char → Bool) (l : List Char)
    (h : ∀ a, l.head? = some a → p a = false) : l.dropWhile p = l := by
  cases l with
  | nil => rfl
  | cons c t =>
    rw [List.dropWhile_cons]
    have hc := h c rfl
    rw [hc]
    simp

lemma getLast?_dropWhile (p : Char → Bool) :
    ∀ l : List Char, l.dropWhile p ≠ [] → (l.dropWhile p).getLast? = l.getLast? := by
  intro l
  induction l with
  | nil => intro h; simp at h
  | cons c t ih =>
    intro h
    by_cases hpc : p c = true
    · rw [List.dropWhile_cons_of_pos hpc] at h ⊢
      have ht : t ≠ [] := by
        intro he
        rw [he] at h
        simp at h
      rw [ih h]
      cases t with
      | nil => exact absurd rfl ht
      | cons d u => rw [List.getLast?_cons_cons]
    · rw [List.dropWhile_cons_of_neg hpc]

lemma stripChars_idem (l : List Char) : stripChars (stripChars l) = stripChars l := by
  by_cases hB : (l.dropWhile Char.isWhitespace).reverse.dropWhile Char.isWhitespace = []
  · unfold stripChars
    rw [hB]
    simp
  · have h1 : ((l.dropWhile Char.isWhitespace).reverse.dropWhile
        Char.isWhitespace).reverse.dropWhile Char.isWhitespace =
        ((l.dropWhile Char.isWhitespace).reverse.dropWhile Char.isWhitespace).reverse := by
      apply dropWhile_eq_self_of_head
      intro a ha
      rw [List.head?_reverse] at ha
      rw [getLast?_dropWhile _ _ hB] at ha
      rw [List.getLast?_reverse] at ha
      exact head?_dropWhile_not _ _ _ ha
    have h2 : ((l.dropWhile Char.isWhitespace).reverse.dropWhile
        Char.isWhitespace).dropWhile Char.isWhitespace =
        (l.dropWhile Char.isWhitespace).reverse.dropWhile Char.isWhitespace := by
      apply dropWhile_eq_self_of_head
      intro a ha
      exact head?_dropWhile_not _ _ _ ha
    show stripChars (stripChars l) = stripChars l
    unfold stripChars
    rw [h1, List.reverse_reverse, h2]

lemma pyStrip_idem (s : String) : pyStrip (pyStrip s) = pyStrip s := by
  unfold pyStrip
  exact congrArg String.mk (stripChars_idem s.data)

/-! ## Lemmas about the replay loop -/

lemma replayFrom_nil (parse : Board → String → Option Move) (b : Board) :
    replayFrom parse b [] = (b, []) := rfl

lemma replayFrom_cons_num (parse : Board → String → Option Move) (b : Board)
    (tok : String) (rest : List String) (h : isMoveNumberToken (pyStrip tok) = true) :
    replayFrom parse b (tok :: rest) = replayFrom parse b rest := by
  simp [replayFrom, h]

lemma replayFrom_cons_empty (parse : Board → String → Option Move) (b : Board)
    (tok : String) (rest : List String) (h1 : isMoveNumberToken (pyStrip tok) = false)
    (h2 : (pyStrip tok).data.isEmpty = true) :
    replayFrom parse b (tok :: rest) = replayFrom parse b rest := by
  simp [replayFrom, h1, h2]

lemma replayFrom_cons_some (parse : Board → String → Option Move) (b : Board)
    (tok : String) (rest : List String) (m : Move)
    (h1 : isMoveNumberToken (pyStrip tok) = false)
    (h2 : (pyStrip tok).data.isEmpty = false)
    (h3 : parse b (pyStrip tok) = some m) :
    replayFrom parse b (tok :: rest) =
      ((replayFrom parse (b.push m) rest).1,
        pyStrip tok :: (replayFrom parse (b.push m) rest).2) := by
  simp [replayFrom, h1, h2, h3]

lemma replayFrom_cons_none (parse : Board → String → Option Move) (b : Board)
    (tok : String) (rest : List String)
    (h1 : isMoveNumberToken (pyStrip tok) = false)
    (h2 : (pyStrip tok).data.isEmpty = false)
    (h3 : parse b (pyStrip tok) = none) :
    replayFrom parse b (tok :: rest) = replayFrom parse b rest := by
  simp [replayFrom, h1, h2, h3]

/-- Replaying the applied subsequence reproduces the replay of the full
scraped sequence: each applied token is already stripped, is not a move
number, is nonempty, and parses to the same move on the same intermediate
board. -/
lemma replayFrom_applied (parse : Board → String → Option Move) :
    ∀ (S : List String) (b : Board),
      replayFrom parse b (replayFrom parse b S).2 = replayFrom parse b S := by
  intro S
  induction S with
  | nil => intro b; rfl
  | cons tok rest ih =>
    intro b
    cases h1 : isMoveNumberToken (pyStrip tok)
    · cases h2 : (pyStrip tok).data.isEmpty
      · cases h3 : parse b (pyStrip tok) with
        | none =>
          rw [replayFrom_cons_none parse b tok rest h1 h2 h3]
          exact ih b
        | some m =>
          rw [replayFrom_cons_some parse b tok rest m h1 h2 h3]
          rw [replayFrom_cons_some parse b (pyStrip tok)
                (replayFrom parse (b.push m) rest).2 m
                (by rw [pyStrip_idem]; exact h1)
                (by rw [pyStrip_idem]; exact h2)
                (by rw [pyStrip_idem]; exact h3)]
          rw [ih (b.push m), pyStrip_idem]
      · rw [replayFrom_cons_empty parse b tok rest h1 h2]
        exact ih b
    · rw [replayFrom_cons_num parse b tok rest h1]
      exact ih b

/-- The side to move after a replay is the starting side xor the parity of
the number of applied moves (`board.push` flips `turn` on every applied
move and on nothing else). -/
lemma replayFrom_turn (parse : Board → String → Option Move) :
    ∀ (S : List String) (b : Board),
      (replayFrom parse b S).1.turn =
        (b.turn == decide ((replayFrom parse b S).2.length % 2 = 0)) := by
  intro S
  induction S with
  | nil => intro b; simp [replayFrom_nil]
  | cons tok rest ih =>
    intro b
    cases h1 : isMoveNumberToken (pyStrip tok)
    · cases h2 : (pyStrip tok).data.isEmpty
      · cases h3 : parse b (pyStrip tok) with
        | none =>
          rw [replayFrom_cons_none parse b tok rest h1 h2 h3]
          exact ih b
        | some m =>
          rw [replayFrom_cons_some parse b tok rest m h1 h2 h3]
          have hih := ih (b.push m)
          simp only [List.length_cons]
          rw [hih]
          have hpush : (b.push m).turn = !b.turn := rfl
          rw [hpush]
          rcases Nat.mod_two_eq_zero_or_one
              (replayFrom parse (b.push m) rest).2.length with h | h <;>
            cases hb : b.turn <;>
            simp [Nat.add_mod, h]
      · rw [replayFrom_cons_empty parse b tok rest h1 h2]
        exact ih b
    · rw [replayFrom_cons_num parse b tok rest h1]
      exact ih b

/-! ## Lemmas about `update_board_from_moves` -/

lemma movesChanged_false_iff (st : BotState) (moves : List String) :
    movesChanged st moves = false ↔
      st.initial_board_set = true ∧ moves = st.move_history := by
  unfold movesChanged
  constructor
  · intro h
    simp at h
    exact ⟨h.1.1, h.2⟩
  · intro ⟨h1, h2⟩
    simp [h1, h2]

lemma updateBoardFromMoves_unchanged (parse : Board → String → Option Move)
    (st : BotState) (moves : List String) (h : movesChanged st moves = false) :
    updateBoardFromMoves parse st moves = ⟨st, st.board, st.move_history⟩ := by
  unfold updateBoardFromMoves
  rw [h]
  rfl

lemma updateBoardFromMoves_changed (parse : Board → String → Option Move)
    (st : BotState) (moves : List String) (h : movesChanged st moves = true) :
    updateBoardFromMoves parse st moves =
      ⟨{ st with
          board := { (replayFrom parse initBoard moves).1 with
            turn := decide ((replayFrom parse initBoard moves).2.length % 2 = 0) },
          move_history := (replayFrom parse initBoard moves).2,
          initial_board_set := true },
        { (replayFrom parse initBoard moves).1 with
          turn := decide ((replayFrom parse initBoard moves).2.length % 2 = 0) },
        (replayFrom parse initBoard moves).2⟩ := by
  unfold updateBoardFromMoves
  rw [h]
  rfl

/-- The mutated `self.move_history` always equals the returned move list. -/
lemma updateBoardFromMoves_history (parse : Board → String → Option Move)
    (st : BotState) (moves : List String) :
    (updateBoardFromMoves parse st moves).state.move_history =
      (updateBoardFromMoves parse st moves).moves := by
  cases h : movesChanged st moves
  · rw [updateBoardFromMoves_unchanged parse st moves h]
  · rw [updateBoardFromMoves_changed parse st moves h]

/-- The mutated `self.board` always equals the returned board. -/
lemma updateBoardFromMoves_board (parse : Board → String → Option Move)
    (st : BotState) (moves : List String) :
    (updateBoardFromMoves parse st moves).state.board =
      (updateBoardFromMoves parse st moves).board := by
  cases h : movesChanged st moves
  · rw [updateBoardFromMoves_unchanged parse st moves h]
  · rw [updateBoardFromMoves_changed parse st moves h]

lemma updateBoardFromMoves_user_color (parse : Board → String → Option Move)
    (st : BotState) (moves : List String) :
    (updateBoardFromMoves parse st moves).state.user_color = st.user_color := by
  cases h : movesChanged st moves
  · rw [updateBoardFromMoves_unchanged parse st moves h]
  · rw [updateBoardFromMoves_changed parse st moves h]

/-- `update_board_from_moves` is idempotent on the whole bot state: running
it again on the state it just produced, with the same scraped list, changes
nothing and returns the same board and moves. -/
lemma updateBoardFromMoves_idem (parse : Board → String → Option Move)
    (st : BotState) (S : List String) :
    updateBoardFromMoves parse (updateBoardFromMoves parse st S).state S =
      updateBoardFromMoves parse st S := by
  cases hch : movesChanged st S
  · rw [updateBoardFromMoves_unchanged parse st S hch]
    exact updateBoardFromMoves_unchanged parse st S hch
  · rw [updateBoardFromMoves_changed parse st S hch]
    by_cases hSA : S = (replayFrom parse initBoard S).2
    · have hun : movesChanged
          { st with
            board := { (replayFrom parse initBoard S).1 with
              turn := decide ((replayFrom parse initBoard S).2.length % 2 = 0) },
            move_history := (replayFrom parse initBoard S).2,
            initial_board_set := true } S = false := by
        rw [movesChanged_false_iff]
        exact ⟨rfl, hSA⟩
      rw [updateBoardFromMoves_unchanged _ _ _ hun]
    · have hc2 : movesChanged
          { st with
            board := { (replayFrom parse initBoard S).1 with
              turn := decide ((replayFrom parse initBoard S).2.length % 2 = 0) },
            move_history := (replayFrom parse initBoard S).2,
            initial_board_set := true } S = true := by
        unfold movesChanged
        simp [hSA]
      rw [updateBoardFromMoves_changed _ _ _ hc2]

/-- After the replay branch, the stored board is literally the board obtained
by replaying the stored history from the initial position: the turn forced by
`_set_correct_turn` coincides with the turn the replay already produced. -/
lemma updateBoardFromMoves_replay_inv (parse : Board → String → Option Move)
    (st : BotState) (S : List String) (h : movesChanged st S = true) :
    (updateBoardFromMoves parse st S).state.board =
      (replayFrom parse initBoard
        (updateBoardFromMoves parse st S).state.move_history).1 := by
  rw [updateBoardFromMoves_changed parse st S h]
  show { (replayFrom parse initBoard S).1 with
      turn := decide ((replayFrom parse initBoard S).2.length % 2 = 0) } =
    (replayFrom parse initBoard (replayFrom parse initBoard S).2).1
  rw [replayFrom_applied parse S initBoard]
  have hturn := replayFrom_turn parse S initBoard
  have hinit : initBoard.turn = true := rfl
  rw [hinit] at hturn
  simp at hturn
  cases hb : (replayFrom parse initBoard S).1 with
  | mk turn stack hasPieces =>
    rw [hb] at hturn
    simp at hturn
    simp [hturn]

/-! ## Lemmas about the worker tick -/

lemma workerTick_outer (parse : Board → String → Option Move) (hasCallback : Bool)
    (interval : ℚ) (wst : WorkerState) (bst : BotState) (inp : TickInput)
    (h : inp.outerRaise = true) :
    workerTick parse hasCallback interval wst bst inp =
      ⟨{ wst with error_count := wst.error_count + 1 }, bst, noEvents,
        if maxErrors ≤ wst.error_count + 1 then pymin (interval * 3) 10
        else interval⟩ := by
  unfold workerTick
  rw [h]
  rfl

lemma workerTick_idle (parse : Board → String → Option Move) (hasCallback : Bool)
    (interval : ℚ) (wst : WorkerState) (bst : BotState) (inp : TickInput)
    (ho : inp.outerRaise = false) (hg : tickGate wst inp = false) :
    workerTick parse hasCallback interval wst bst inp =
      ⟨wst, bst, noEvents, interval⟩ := by
  unfold workerTick
  rw [ho, hg]
  rfl

lemma workerTick_reconcile_error (parse : Board → String → Option Move)
    (hasCallback : Bool) (interval : ℚ) (wst : WorkerState) (bst : BotState)
    (inp : TickInput) (ho : inp.outerRaise = false) (hg : tickGate wst inp = true)
    (u : Unit) (hr : inp.reconcile = .error u) :
    workerTick parse hasCallback interval wst bst inp =
      ⟨{ wst with error_count := wst.error_count + 1 }, bst,
        ⟨true, false, false⟩, interval⟩ := by
  unfold workerTick
  rw [ho, hg, hr]
  rfl

lemma workerTick_commit (parse : Board → String → Option Move) (hasCallback : Bool)
    (interval : ℚ) (wst : WorkerState) (bst : BotState) (inp : TickInput)
    (M : List String) (ho : inp.outerRaise = false) (hg : tickGate wst inp = true)
    (hr : inp.reconcile = .ok M)
    (hc : commitGate wst (updateBoardFromMoves parse bst M).moves = true) :
    workerTick parse hasCallback interval wst bst inp =
      ⟨⟨(updateBoardFromMoves parse bst M).moves.length,
          movesHash (updateBoardFromMoves parse bst M).moves, 0, inp.now⟩,
        (updateBoardFromMoves parse bst M).state,
        ⟨true, true, hasCallback⟩, interval⟩ := by
  unfold workerTick
  rw [ho, hg, hr]
  simp [hc]

lemma workerTick_nocommit (parse : Board → String → Option Move) (hasCallback : Bool)
    (interval : ℚ) (wst : WorkerState) (bst : BotState) (inp : TickInput)
    (M : List String) (ho : inp.outerRaise = false) (hg : tickGate wst inp = true)
    (hr : inp.reconcile = .ok M)
    (hc : commitGate wst (updateBoardFromMoves parse bst M).moves = false) :
    workerTick parse hasCallback interval wst bst inp =
      ⟨wst, (updateBoardFromMoves parse bst M).state,
        ⟨true, false, false⟩, interval⟩ := by
  unfold workerTick
  rw [ho, hg, hr]
  simp [hc]

/-- The tick reconciles exactly when the double gate passes (and no outer
exception preempted it). -/
lemma workerTick_reconciled_iff (parse : Board → String → Option Move)
    (hasCallback : Bool) (interval : ℚ) (wst : WorkerState) (bst : BotState)
    (inp : TickInput) :
    (workerTick parse hasCallback interval wst bst inp).events.reconciled = true ↔
      inp.outerRaise = false ∧ tickGate wst inp = true := by
  cases ho : inp.outerRaise
  · cases hg : tickGate wst inp
    · rw [workerTick_idle parse hasCallback interval wst bst inp ho hg]
      simp [noEvents]
    · cases hr : inp.reconcile with
      | error u =>
        rw [workerTick_reconcile_error parse hasCallback interval wst bst inp ho hg u hr]
        simp
      | ok M =>
        cases hc : commitGate wst (updateBoardFromMoves parse bst M).moves
        · rw [workerTick_nocommit parse hasCallback interval wst bst inp M ho hg hr hc]
          simp
        · rw [workerTick_commit parse hasCallback interval wst bst inp M ho hg hr hc]
          simp
  · rw [workerTick_outer parse hasCallback interval wst bst inp ho]
    simp [noEvents]

/-! ## Claim theorems -/

/-- C4: on every poll tick whose scrape yields an empty token sequence the
worker neither raises (`_scrape_move_list` returns `[]` on any internal
exception) nor alters the last-accepted move count, fingerprint, or board
state — the tick is a complete no-op apart from the ordinary wait. -/
theorem C4_empty_scrape_no_signal :
    scrapeResult (.error ()) = [] ∧
    ∀ (parse : Board → String → Option Move) (hasCallback : Bool) (interval : ℚ)
      (wst : WorkerState) (bst : BotState) (now : ℚ)
      (raw rec : Except Unit (List String)),
      scrapeResult raw = [] →
      workerTick parse hasCallback interval wst bst ⟨now, raw, rec, false⟩ =
        ⟨wst, bst, noEvents, interval⟩ := by
  refine ⟨rfl, ?_⟩
  intro parse hasCallback interval wst bst now raw rec h
  apply workerTick_idle parse hasCallback interval wst bst _ rfl
  unfold tickGate
  simp [h, movesHash]

/-- C4 witness: a concrete failing scrape (hence an empty token sequence)
leaves a concrete worker and bot state untouched. -/
theorem C4_empty_scrape_no_signal_witness :
    workerTick demoParse true 2 ⟨1, some ["e4"], 0, 10⟩ demoBot
        ⟨12, .error (), .ok [], false⟩ =
      ⟨⟨1, some ["e4"], 0, 10⟩, demoBot, noEvents, 2⟩ :=
  C4_empty_scrape_no_signal.2 demoParse true 2 ⟨1, some ["e4"], 0, 10⟩ demoBot 12
    (.error ()) (.ok []) rfl

/-- C5: replay is deterministic and idempotent — running
`update_board_from_moves` again on the state it just produced (same scraped
sequence) changes nothing — and after every reconciliation (the replay
branch) the stored board equals the replay of the stored accepted move
history from the initial position. -/
theorem C5_replay_deterministic_invariant :
    ∀ (parse : Board → String → Option Move) (st : BotState) (S : List String),
      (updateBoardFromMoves parse (updateBoardFromMoves parse st S).state S =
        updateBoardFromMoves parse st S) ∧
      (movesChanged st S = true →
        (updateBoardFromMoves parse st S).state.board =
          (replayFrom parse initBoard
            (updateBoardFromMoves parse st S).state.move_history).1) :=
  fun parse st S =>
    ⟨updateBoardFromMoves_idem parse st S,
      fun h => updateBoardFromMoves_replay_inv parse st S h⟩

/-- C5 witness: a concrete scrape containing a move number and an
unparseable token is replayed; re-running changes nothing, and the stored
board equals the replay of the stored history. -/
theorem C5_replay_deterministic_invariant_witness :
    (updateBoardFromMoves demoParse
        (updateBoardFromMoves demoParse freshBot ["1.", "e4", "xx", " e5 "]).state
        ["1.", "e4", "xx", " e5 "] =
      updateBoardFromMoves demoParse freshBot ["1.", "e4", "xx", " e5 "]) ∧
    (updateBoardFromMoves demoParse freshBot ["1.", "e4", "xx", " e5 "]).state.board =
      (replayFrom demoParse initBoard
        (updateBoardFromMoves demoParse freshBot
          ["1.", "e4", "xx", " e5 "]).state.move_history).1 :=
  ⟨(C5_replay_deterministic_invariant demoParse freshBot ["1.", "e4", "xx", " e5 "]).1,
    (C5_replay_deterministic_invariant demoParse freshBot ["1.", "e4", "xx", " e5 "]).2
      (by decide)⟩

/-- C6: after reconciliation the side to move is inferred purely from the
parity of the applied move count — white to move exactly when the applied
count is even (`_set_correct_turn`). -/
theorem C6_turn_from_parity :
    ∀ (parse : Board → String → Option Move) (st : BotState) (moves : List String),
      movesChanged st moves = true →
      ((updateBoardFromMoves parse st moves).state.board.turn = true ↔
        (updateBoardFromMoves parse st moves).moves.length % 2 = 0) := by
  intro parse st moves h
  rw [updateBoardFromMoves_changed parse st moves h]
  simp

/-- C6 witness: for `["e4","e5","Nf3"]` three moves apply, so black is to
move; for `["e4","e5"]` two moves apply, so white is to move. -/
theorem C6_turn_from_parity_witness :
    (((updateBoardFromMoves demoParse freshBot ["e4", "e5", "Nf3"]).state.board.turn = true ↔
        (updateBoardFromMoves demoParse freshBot ["e4", "e5", "Nf3"]).moves.length % 2 = 0) ∧
      (updateBoardFromMoves demoParse freshBot ["e4", "e5", "Nf3"]).state.board.turn = false ∧
      (updateBoardFromMoves demoParse freshBot ["e4", "e5", "Nf3"]).moves.length = 3) ∧
    ((updateBoardFromMoves demoParse freshBot ["e4", "e5"]).state.board.turn = true ∧
      (updateBoardFromMoves demoParse freshBot ["e4", "e5"]).moves.length = 2) :=
  ⟨⟨C6_turn_from_parity demoParse freshBot ["e4", "e5", "Nf3"] (by decide),
      by decide, by decide⟩,
    by decide, by decide⟩

/-- C9: calling `start_auto_update` while a poller is already active is a
no-op, not an error: it returns without raising and leaves every poller
field (callback, interval, auto-suggest flag, thread, stop signal)
unchanged. -/
theorem C9_start_auto_update_noop :
    ∀ (st : PollerState) (callback : Option Nat) (interval : ℚ)
      (auto_suggest : Bool),
      st.auto_update_enabled = true →
      startAutoUpdate st callback interval auto_suggest = .ok st := by
  intro st callback interval auto_suggest h
  unfold startAutoUpdate
  rw [h]
  rfl

/-- C9 witness: a second `start_auto_update` with a different callback,
interval and auto-suggest flag returns the running poller's state intact. -/
theorem C9_start_auto_update_noop_witness :
    startAutoUpdate ⟨true, true, some 7, 2, true, some 3, false⟩ (some 9) (1/2) true =
      .ok ⟨true, true, some 7, 2, true, some 3, false⟩ :=
  C9_start_auto_update_noop ⟨true, true, some 7, 2, true, some 3, false⟩
    (some 9) (1/2) true rfl

/-- C7 counterexample: a run in which the engine process dies twice is
restarted twice and the call still succeeds — the adapter does not stop at
one automatic restart, and a second dead process is not surfaced as an
error. -/
theorem C7_counterexample :
    (analyzeRun 2 [.terminated true, .terminated true, .ok true]).restarts = 2 ∧
    (analyzeRun 2 [.terminated true, .terminated true, .ok true]).result =
      .fromPv := by
  with_unfolding_all decide

/-- C7 (amended): on detecting a dead engine process `_analyze_position`
restarts the engine and retries, and does so again on every subsequent dead
process — `n` consecutive dead processes give `n` restarts, with no
one-restart limit; a failed restart raises `ChessBotError` to the caller;
any other analysis failure yields the first-legal-move fallback instead of a
surfaced error. -/
theorem C7_engine_restart_behavior :
    (∀ (n : Nat) (t : ℚ),
      (analyzeRun t
        (List.replicate n (.terminated true) ++ [.ok true])).restarts = n) ∧
    (∀ (t : ℚ) (rest : List EngineOutcome),
      (analyzeRun t (.terminated false :: rest)).result = .raisedRestartFailed) ∧
    (∀ (t : ℚ) (rest : List EngineOutcome),
      (analyzeRun t (.err :: rest)).result = .fallbackLegal ∧
      (analyzeRun t (.err :: rest)).restarts = 0) := by
  refine ⟨?_, ?_, ?_⟩
  · intro n
    induction n with
    | zero => intro t; rfl
    | succ k ih =>
      intro t
      simp [List.replicate_succ, analyzeRun, ih (pymin t 1)]
  · intro t rest; rfl
  · intro t rest; exact ⟨rfl, rfl⟩

/-- C8 counterexample: for `time_limit = 5` the clamp of line 534 gives 5,
but the budget actually handed to `engine.analyse` is
`min(time_limit, 3.0) = 3` (line 544), not the clamped 5. -/
theorem C8_counterexample :
    clampTime 5 = 5 ∧
    (getBestMove demoParse (fun _ => false) (fun _ => true) [.ok true] []
        demoBot 5).2 = .ok ⟨.fromPv, 0, [3]⟩ ∧
    (3 : ℚ) ≠ 5 := by
  with_unfolding_all decide

/-- C8 (amended): the time budget actually used for the first analysis call
is `time_limit` clamped to `[0.1, 3.0]` — the `[0.1, 10.0]` clamp of
`get_best_move` composed with the extra `min(·, 3.0)` cap inside
`_analyze_position`: inputs below 0.1 become 0.1, inputs above 3.0 become
3.0, and inputs inside `[0.1, 3.0]` are used unchanged. -/
theorem C8_time_budget :
    ∀ (t : ℚ) (o : EngineOutcome) (rest : List EngineOutcome),
      pymin (clampTime t) 3 = pymax (1 / 10) (pymin t 3) ∧
      (analyzeRun (clampTime t) (o :: rest)).budgets.head? =
        some (pymax (1 / 10) (pymin t 3)) := by
  intro t o rest
  have key : pymin (clampTime t) 3 = pymax (1 / 10) (pymin t 3) := by
    unfold clampTime pymin pymax
    split_ifs <;> first | rfl | linarith
  refine ⟨key, ?_⟩
  cases o with
  | ok good => simp [analyzeRun, key]
  | err => simp [analyzeRun, key]
  | terminated restartOk =>
    cases restartOk
    · simp [analyzeRun, key]
    · simp [analyzeRun, key]

/-- C2 counterexample: the minimum inter-update interval is the fixed 1.0 s
of line 192, and `start_auto_update` accepts a poll interval of 0.5 s, so
the minimum inter-update interval is not "at most the poll interval" for
every reachable configuration. -/
theorem C2_counterexample :
    startAutoUpdate ⟨false, true, none, 2, false, none, false⟩ none (1/2) false =
      .ok ⟨true, true, none, 1/2, false, some 0, false⟩ ∧
    ¬ minUpdateInterval ≤ (1/2 : ℚ) := by
  constructor
  · rfl
  · with_unfolding_all decide

/-- C2 (amended): reconciliation happens on a tick only when the scraped
sequence's length or fingerprint differs from the last accepted one, the
scrape is nonempty, and at least the minimum inter-update interval — the
fixed 1.0 s, distinct from and at most the *default* 2.0 s poll interval,
though a smaller poll interval may be configured — has elapsed since the
last accepted update; if the spacing has not elapsed, no reconciliation and
no callback occur even if content changed. -/
theorem C2_double_gate :
    (minUpdateInterval ≠ defaultPollInterval ∧
      minUpdateInterval ≤ defaultPollInterval) ∧
    ∀ (parse : Board → String → Option Move) (hasCallback : Bool) (interval : ℚ)
      (wst : WorkerState) (bst : BotState) (inp : TickInput),
      ((workerTick parse hasCallback interval wst bst inp).events.reconciled = true →
        significantChange wst (scrapeResult inp.scrapeRaw) = true ∧
        (movesHash (scrapeResult inp.scrapeRaw)).isSome = true ∧
        minUpdateInterval ≤ inp.now - wst.last_update_time) ∧
      (inp.now - wst.last_update_time < minUpdateInterval →
        (workerTick parse hasCallback interval wst bst inp).events.reconciled = false ∧
        (workerTick parse hasCallback interval wst bst inp).events.callbackFired = false) := by
  constructor
  · constructor
    · unfold minUpdateInterval defaultPollInterval
      norm_num
    · unfold minUpdateInterval defaultPollInterval
      norm_num
  · intro parse hasCallback interval wst bst inp
    constructor
    · intro h
      have hg := (workerTick_reconciled_iff parse hasCallback interval wst bst inp).mp h
      have := hg.2
      unfold tickGate at this
      simp only [Bool.and_eq_true, decide_eq_true_eq] at this
      exact ⟨this.1.1, this.1.2, this.2⟩
    · intro h
      have hfalse : tickGate wst inp = false := by
        unfold tickGate
        have : decide (minUpdateInterval ≤ inp.now - wst.last_update_time) = false :=
          decide_eq_false (not_le.mpr h)
        rw [this]
        simp
      cases ho : inp.outerRaise
      · rw [workerTick_idle parse hasCallback interval wst bst inp ho hfalse]
        exact ⟨rfl, rfl⟩
      · rw [workerTick_outer parse hasCallback interval wst bst inp ho]
        exact ⟨rfl, rfl⟩

/-- C2 witness: a concrete tick 0.5 s after the last accepted update, with
changed scraped content, performs no reconciliation and fires no callback. -/
theorem C2_double_gate_witness :
    (workerTick demoParse true 2 ⟨1, some ["e4"], 0, 10⟩ demoBot
        ⟨21/2, .ok ["e4", "e5"], .ok ["e4", "e5"], false⟩).events.reconciled = false ∧
    (workerTick demoParse true 2 ⟨1, some ["e4"], 0, 10⟩ demoBot
        ⟨21/2, .ok ["e4", "e5"], .ok ["e4", "e5"], false⟩).events.callbackFired = false :=
  (C2_double_gate.2 demoParse true 2 ⟨1, some ["e4"], 0, 10⟩ demoBot
      ⟨21/2, .ok ["e4", "e5"], .ok ["e4", "e5"], false⟩).2
    (by with_unfolding_all decide)

/-- C3 counterexample: five consecutive low-level scrape failures (each one
an exception inside `_scrape_move_list`, which swallows it and returns `[]`)
leave the error counter at zero and make every wait — including the one
after the fifth failure — exactly the 2.0 s base poll interval, not strictly
greater. -/
theorem C3_counterexample :
    (let inp : ℚ → TickInput := fun n => ⟨n, .error (), .ok [], false⟩
     let t1 := workerTick demoParse true 2 (initWorkerState demoBot) demoBot (inp 2)
     let t2 := workerTick demoParse true 2 t1.wst t1.bst (inp 4)
     let t3 := workerTick demoParse true 2 t2.wst t2.bst (inp 6)
     let t4 := workerTick demoParse true 2 t3.wst t3.bst (inp 8)
     let t5 := workerTick demoParse true 2 t4.wst t4.bst (inp 10)
     t1.wait = 2 ∧ t2.wait = 2 ∧ t3.wait = 2 ∧ t4.wait = 2 ∧ t5.wait = 2 ∧
       t5.wst.error_count = 0 ∧ t5.wst = initWorkerState demoBot ∧
       t5.bst = demoBot) := by
  with_unfolding_all decide

/-- C3 (amended): a low-level scrape failure is swallowed inside
`_scrape_move_list` (it returns `[]`), so it changes neither the error
counter nor the wait, which stays the base poll interval; an exception
during the reconciliation step increments the error counter but the
following wait is still the base poll interval; the counter resets to zero
on any committed reconciliation; only an exception reaching the worker's
outer handler triggers, once the counter reaches 5, the capped backoff
`min(interval * 3, 10.0)`, which is strictly greater than any base interval
strictly between 0 and 10. -/
theorem C3_error_handling :
    ∀ (parse : Board → String → Option Move) (hasCallback : Bool) (interval : ℚ)
      (wst : WorkerState) (bst : BotState) (inp : TickInput),
      (inp.outerRaise = false → inp.scrapeRaw = .error () →
        workerTick parse hasCallback interval wst bst inp =
          ⟨wst, bst, noEvents, interval⟩) ∧
      (inp.outerRaise = false → tickGate wst inp = true →
        inp.reconcile = .error () →
        (workerTick parse hasCallback interval wst bst inp).wst.error_count =
            wst.error_count + 1 ∧
          (workerTick parse hasCallback interval wst bst inp).wait = interval) ∧
      ((workerTick parse hasCallback interval wst bst inp).events.committed = true →
        (workerTick parse hasCallback interval wst bst inp).wst.error_count = 0) ∧
      (inp.outerRaise = true →
        (workerTick parse hasCallback interval wst bst inp).wst.error_count =
            wst.error_count + 1 ∧
          (workerTick parse hasCallback interval wst bst inp).wait =
            (if maxErrors ≤ wst.error_count + 1 then pymin (interval * 3) 10
             else interval)) ∧
      (inp.outerRaise = true → maxErrors ≤ wst.error_count + 1 →
        0 < interval → interval < 10 →
        interval < (workerTick parse hasCallback interval wst bst inp).wait) := by
  intro parse hasCallback interval wst bst inp
  refine ⟨?_, ?_, ?_, ?_, ?_⟩
  · intro ho hraw
    apply workerTick_idle parse hasCallback interval wst bst inp ho
    unfold tickGate
    rw [hraw]
    simp [scrapeResult, movesHash]
  · intro ho hg hr
    rw [workerTick_reconcile_error parse hasCallback interval wst bst inp ho hg () hr]
    exact ⟨rfl, rfl⟩
  · intro h
    cases ho : inp.outerRaise
    · cases hg : tickGate wst inp
      · rw [workerTick_idle parse hasCallback interval wst bst inp ho hg] at h
        simp [noEvents] at h
      · cases hr : inp.reconcile with
        | error u =>
          rw [workerTick_reconcile_error parse hasCallback interval wst bst
            inp ho hg u hr] at h
          simp at h
        | ok M =>
          cases hc : commitGate wst (updateBoardFromMoves parse bst M).moves
          · rw [workerTick_nocommit parse hasCallback interval wst bst
              inp M ho hg hr hc] at h
            simp at h
          · rw [workerTick_commit parse hasCallback interval wst bst
              inp M ho hg hr hc]
    · rw [workerTick_outer parse hasCallback interval wst bst inp ho] at h
      simp [noEvents] at h
  · intro ho
    rw [workerTick_outer parse hasCallback interval wst bst inp ho]
    exact ⟨rfl, rfl⟩
  · intro ho hmax hpos hlt
    rw [workerTick_outer parse hasCallback interval wst bst inp ho]
    show interval < if maxErrors ≤ wst.error_count + 1 then pymin (interval * 3) 10
      else interval
    rw [if_pos hmax]
    unfold pymin
    split_ifs with h3
    · linarith
    · exact hlt

/-- C3 witness: concrete ticks showing the scrape-failure no-op, the
reconciliation-exception counter increment with a plain-interval wait, and
the outer-handler backoff wait 6 = min(2 * 3, 10) exceeding the base 2. -/
theorem C3_error_handling_witness :
    (workerTick demoParse true 2 ⟨1, some ["e4"], 0, 0⟩ demoBot
        ⟨2, .error (), .ok [], false⟩ =
      ⟨⟨1, some ["e4"], 0, 0⟩, demoBot, noEvents, 2⟩) ∧
    ((workerTick demoParse true 2 ⟨1, some ["e4"], 0, 4⟩ demoBot
        ⟨6, .ok ["e4", "e5"], .error (), false⟩).wst.error_count = 1 ∧
      (workerTick demoParse true 2 ⟨1, some ["e4"], 0, 4⟩ demoBot
        ⟨6, .ok ["e4", "e5"], .error (), false⟩).wait = 2) ∧
    (2 < (workerTick demoParse true 2 ⟨1, some ["e4"], 4, 0⟩ demoBot
        ⟨6, .ok [], .ok [], true⟩).wait) :=
  ⟨(C3_error_handling demoParse true 2 ⟨1, some ["e4"], 0, 0⟩ demoBot
      ⟨2, .error (), .ok [], false⟩).1 rfl rfl,
    (C3_error_handling demoParse true 2 ⟨1, some ["e4"], 0, 4⟩ demoBot
      ⟨6, .ok ["e4", "e5"], .error (), false⟩).2.1 rfl
      (by with_unfolding_all decide) rfl,
    (C3_error_handling demoParse true 2 ⟨1, some ["e4"], 4, 0⟩ demoBot
      ⟨6, .ok [], .ok [], true⟩).2.2.2.2 rfl (by decide)
      (by with_unfolding_all decide) (by with_unfolding_all decide)⟩

/-- A successful pass through the tail of `get_best_move` leaves the stored
board's side to move equal to the configured user color (line 528 assigns
it before validation and analysis). -/
lemma validateAndAnalyze_turn (gameOver hasLegalMoves : Board → Bool)
    (eng : List EngineOutcome) (st2 : BotState) (tl : ℚ) (c : Bool)
    (huc : st2.user_color = some c)
    (hok : (validateAndAnalyze gameOver hasLegalMoves eng st2 tl).2.isOk = true) :
    (validateAndAnalyze gameOver hasLegalMoves eng st2 tl).1.board.turn = c := by
  unfold validateAndAnalyze at hok ⊢
  rw [huc] at hok ⊢
  cases hp : st2.board.hasPieces
  · simp [hp, Except.isOk, Except.toBool] at hok
  · simp only [hp, Bool.not_true, Bool.false_eq_true, if_false]
    split <;> rfl

/-- C10: every successful `get_best_move` call with a configured user color
overwrites the stored board's side to move with that color regardless of the
applied-move-count parity, and as a consequence the stored board can cease
to equal the replay of the accepted move history (witnessed concretely for
history `["e4"]` with user color white, where parity says black moves). -/
theorem C10_get_best_move_forces_user_color :
    (∀ (parse : Board → String → Option Move) (gameOver hasLegalMoves : Board → Bool)
      (eng : List EngineOutcome) (scraped : List String) (st : BotState)
      (t : ℚ) (c : Bool),
      st.user_color = some c →
      (getBestMove parse gameOver hasLegalMoves eng scraped st t).2.isOk = true →
      (getBestMove parse gameOver hasLegalMoves eng scraped st t).1.board.turn = c) ∧
    ((getBestMove demoParse (fun _ => false) (fun _ => true) [.ok true] []
        demoBot 1).2.isOk = true ∧
      (getBestMove demoParse (fun _ => false) (fun _ => true) [.ok true] []
        demoBot 1).1.board ≠
        (replayFrom demoParse initBoard
          (getBestMove demoParse (fun _ => false) (fun _ => true) [.ok true] []
            demoBot 1).1.move_history).1) := by
  constructor
  · intro parse gameOver hasLegalMoves eng scraped st t c huc hok
    unfold getBestMove at hok ⊢
    apply validateAndAnalyze_turn _ _ _ _ _ c _ hok
    cases hib : st.initial_board_set
    · simp only [hib, Bool.false_eq_true, if_false]
      rw [updateBoardFromMoves_user_color]
      exact huc
    · simp only [hib, if_true]
      exact huc
  · constructor
    · with_unfolding_all decide
    · with_unfolding_all decide

/-- C10 witness: for the concrete state with accepted history `["e4"]` and
user color white, a successful `get_best_move` leaves white to move. -/
theorem C10_get_best_move_forces_user_color_witness :
    (getBestMove demoParse (fun _ => false) (fun _ => true) [.ok true] []
      demoBot 1).1.board.turn = true :=
  C10_get_best_move_forces_user_color.1 demoParse (fun _ => false) (fun _ => true)
    [.ok true] [] demoBot 1 true rfl (by with_unfolding_all decide)

/-- C1 counterexample: two consecutive ticks scrape the same fingerprint
`["e4","e5"]`, yet the update callback fires on the second tick — the first
tick's change was deferred by the spacing gate (0.5 s since the last
accepted update), so the claim's unconditional "no callback on the second
tick" fails. -/
theorem C1_counterexample :
    (workerTick demoParse true 2 ⟨1, some ["e4"], 0, 10⟩ demoBot
        ⟨21/2, .ok ["e4", "e5"], .ok ["e4", "e5"], false⟩).events.callbackFired =
      false ∧
    (workerTick demoParse true 2
        (workerTick demoParse true 2 ⟨1, some ["e4"], 0, 10⟩ demoBot
          ⟨21/2, .ok ["e4", "e5"], .ok ["e4", "e5"], false⟩).wst
        (workerTick demoParse true 2 ⟨1, some ["e4"], 0, 10⟩ demoBot
          ⟨21/2, .ok ["e4", "e5"], .ok ["e4", "e5"], false⟩).bst
        ⟨23/2, .ok ["e4", "e5"], .ok ["e4", "e5"], false⟩).events.callbackFired =
      true := by
  with_unfolding_all decide

/-- C1 (amended): after a reconciliation the applied subsequence is
re-fingerprinted and the accepted count/hash state is committed — and the
update callback fired — exactly when that fingerprint or count differs from
the previously accepted one; and for every pair of consecutive ticks whose
scrapes yield the same fingerprint, the callback does not fire on the second
tick provided the first tick either committed or observed no significant
change (i.e. no pending change was deferred by the spacing gate or lost to a
reconciliation exception on the first tick). -/
theorem C1_applied_hash_commit_gate :
    (∀ (parse : Board → String → Option Move) (hasCallback : Bool)
      (interval : ℚ) (wst : WorkerState) (bst : BotState) (now : ℚ)
      (S M : List String),
      ((workerTick parse hasCallback interval wst bst
          ⟨now, .ok S, .ok M, false⟩).events.committed = true ↔
        (workerTick parse hasCallback interval wst bst
          ⟨now, .ok S, .ok M, false⟩).events.reconciled = true ∧
        commitGate wst (updateBoardFromMoves parse bst M).moves = true) ∧
      ((workerTick parse hasCallback interval wst bst
          ⟨now, .ok S, .ok M, false⟩).events.callbackFired =
        ((workerTick parse hasCallback interval wst bst
          ⟨now, .ok S, .ok M, false⟩).events.committed && hasCallback)) ∧
      ((workerTick parse hasCallback interval wst bst
          ⟨now, .ok S, .ok M, false⟩).events.committed = true →
        (workerTick parse hasCallback interval wst bst
          ⟨now, .ok S, .ok M, false⟩).wst.last_move_count =
            (updateBoardFromMoves parse bst M).moves.length ∧
        (workerTick parse hasCallback interval wst bst
          ⟨now, .ok S, .ok M, false⟩).wst.last_moves_hash =
            movesHash (updateBoardFromMoves parse bst M).moves)) ∧
    (∀ (parse : Board → String → Option Move) (hasCallback : Bool)
      (interval : ℚ) (wst : WorkerState) (bst : BotState) (n1 n2 : ℚ)
      (S : List String),
      (workerTick parse hasCallback interval wst bst
        ⟨n1, .ok S, .ok S, false⟩).events.committed = true ∨
        significantChange wst S = false →
      (workerTick parse hasCallback interval
        (workerTick parse hasCallback interval wst bst
          ⟨n1, .ok S, .ok S, false⟩).wst
        (workerTick parse hasCallback interval wst bst
          ⟨n1, .ok S, .ok S, false⟩).bst
        ⟨n2, .ok S, .ok S, false⟩).events.callbackFired = false) := by
  constructor
  · intro parse hasCallback interval wst bst now S M
    cases hg : tickGate wst ⟨now, .ok S, .ok M, false⟩
    · rw [workerTick_idle parse hasCallback interval wst bst _ rfl hg]
      simp [noEvents]
    · cases hc : commitGate wst (updateBoardFromMoves parse bst M).moves
      · rw [workerTick_nocommit parse hasCallback interval wst bst _ M rfl hg rfl hc]
        simp [hc]
      · rw [workerTick_commit parse hasCallback interval wst bst _ M rfl hg rfl hc]
        simp [hc]
  · intro parse hasCallback interval wst bst n1 n2 S H
    rcases H with Hcom | Hsig
    · cases hg1 : tickGate wst ⟨n1, .ok S, .ok S, false⟩
      · rw [workerTick_idle parse hasCallback interval wst bst _ rfl hg1] at Hcom
        simp [noEvents] at Hcom
      · cases hc1 : commitGate wst (updateBoardFromMoves parse bst S).moves
        · rw [workerTick_nocommit parse hasCallback interval wst bst _ S rfl hg1
            rfl hc1] at Hcom
          simp at Hcom
        · rw [workerTick_commit parse hasCallback interval wst bst _ S rfl hg1
            rfl hc1]
          dsimp only
          by_cases hSA : S = (updateBoardFromMoves parse bst S).moves
          · have hsig2 : significantChange
                ⟨(updateBoardFromMoves parse bst S).moves.length,
                  movesHash (updateBoardFromMoves parse bst S).moves, 0, n1⟩ S =
                false := by
              unfold significantChange
              rw [← hSA]
              simp
            have hg2 : tickGate
                ⟨(updateBoardFromMoves parse bst S).moves.length,
                  movesHash (updateBoardFromMoves parse bst S).moves, 0, n1⟩
                ⟨n2, .ok S, .ok S, false⟩ = false := by
              unfold tickGate
              simp [scrapeResult, hsig2]
            rw [workerTick_idle parse hasCallback interval _ _ _ rfl hg2]
            rfl
          · cases hg2 : tickGate
                ⟨(updateBoardFromMoves parse bst S).moves.length,
                  movesHash (updateBoardFromMoves parse bst S).moves, 0, n1⟩
                ⟨n2, .ok S, .ok S, false⟩
            · rw [workerTick_idle parse hasCallback interval _ _ _ rfl hg2]
              rfl
            · have happlied : (updateBoardFromMoves parse
                  (updateBoardFromMoves parse bst S).state S).moves =
                  (updateBoardFromMoves parse bst S).moves :=
                congrArg UpdateOut.moves (updateBoardFromMoves_idem parse bst S)
              have hc2 : commitGate
                  ⟨(updateBoardFromMoves parse bst S).moves.length,
                    movesHash (updateBoardFromMoves parse bst S).moves, 0, n1⟩
                  (updateBoardFromMoves parse
                    (updateBoardFromMoves parse bst S).state S).moves = false := by
                rw [happlied]
                unfold commitGate
                simp
              rw [workerTick_nocommit parse hasCallback interval _ _ _ S rfl hg2
                rfl hc2]
    · have hgn : ∀ n : ℚ, tickGate wst ⟨n, .ok S, .ok S, false⟩ = false := by
        intro n
        unfold tickGate
        simp [scrapeResult, Hsig]
      rw [workerTick_idle parse hasCallback interval wst bst _ rfl (hgn n1)]
      show (workerTick parse hasCallback interval wst bst
        ⟨n2, .ok S, .ok S, false⟩).events.callbackFired = false
      rw [workerTick_idle parse hasCallback interval wst bst _ rfl (hgn n2)]
      rfl

/-- C1 witness: with the last accepted state `(1, hash ["e4"])` and ample
elapsed time, a tick scraping `["e4","e5"]` commits with the new count 2 and
applied fingerprint, and a second tick scraping the same fingerprint fires
no callback. -/
theorem C1_applied_hash_commit_gate_witness :
    ((workerTick demoParse true 2 ⟨1, some ["e4"], 0, 0⟩ demoBot
        ⟨10, .ok ["e4", "e5"], .ok ["e4", "e5"], false⟩).wst.last_move_count = 2 ∧
      (workerTick demoParse true 2 ⟨1, some ["e4"], 0, 0⟩ demoBot
        ⟨10, .ok ["e4", "e5"], .ok ["e4", "e5"], false⟩).wst.last_moves_hash =
        movesHash (updateBoardFromMoves demoParse demoBot ["e4", "e5"]).moves) ∧
    (workerTick demoParse true 2
        (workerTick demoParse true 2 ⟨1, some ["e4"], 0, 0⟩ demoBot
          ⟨10, .ok ["e4", "e5"], .ok ["e4", "e5"], false⟩).wst
        (workerTick demoParse true 2 ⟨1, some ["e4"], 0, 0⟩ demoBot
          ⟨10, .ok ["e4", "e5"], .ok ["e4", "e5"], false⟩).bst
        ⟨12, .ok ["e4", "e5"], .ok ["e4", "e5"], false⟩).events.callbackFired =
      false :=
  ⟨⟨((C1_applied_hash_commit_gate.1 demoParse true 2 ⟨1, some ["e4"], 0, 0⟩
        demoBot 10 ["e4", "e5"] ["e4", "e5"]).2.2
        (by with_unfolding_all decide)).1.trans (by with_unfolding_all decide),
      ((C1_applied_hash_commit_gate.1 demoParse true 2 ⟨1, some ["e4"], 0, 0⟩
        demoBot 10 ["e4", "e5"] ["e4", "e5"]).2.2
        (by with_unfolding_all decide)).2⟩,
    C1_applied_hash_commit_gate.2 demoParse true 2 ⟨1, some ["e4"], 0, 0⟩
      demoBot 10 12 ["e4", "e5"] (Or.inl (by with_unfolding_all decide))⟩

end PawnStar
